import Mathlib

/-!
Shallow embedding of the channel and ECU-reset layers of the `ecu_diagnostics`
crate (files `src/channel.rs` and `src/uds/ecu_reset.rs`), together with
theorems settling the specification claims about them.

Conventions: Rust `u8`/`u32` values are modelled as `Nat` (no arithmetic in the
embedded code can overflow: the only numeric computation is `min 8 len`, which
stays below 256); byte buffers are `List Nat`; fallible operations return
`Except ChannelError` or `Except DiagError`; stateful trait objects are
modelled as records of state-transition functions over an abstract state type.
-/

namespace EcuDiag

/-- The payload of `ChannelError::IOError` is `std::io::Error`, external to the
crate; only its presence matters here, so it is modelled as a string message. -/
abbrev IoErrorPayload := String

/-- The payload of `ChannelError::HardwareError` is `crate::hardware::HardwareError`,
which is outside the embedded files; modelled as a string message. -/
abbrev HardwareErrorPayload := String

/-- `ChannelError` from `src/channel.rs` lines 17-40: error produced by a
communication channel. -/
inductive ChannelError where
  | IOError (e : IoErrorPayload)
  | WriteTimeout
  | ReadTimeout
  | BufferEmpty
  | BufferFull
  | UnsupportedRequest
  | InterfaceNotOpen
  | HardwareError (e : HardwareErrorPayload)
  | NotOpen
  | ConfigurationError
deriving DecidableEq, Repr

/-- `ChannelResult<T>` from `src/channel.rs` line 15. -/
abbrev ChannelResult (T : Type) := Except ChannelError T

/-- `CanFrame` from `src/channel.rs` lines 343-350: fields `id: u32`,
`dlc: u8`, `data: [u8; 8]`, `ext: bool`. The fixed-size array is a `List Nat`
that every constructor of the embedding keeps at length 8. -/
structure CanFrame where
  id : Nat
  dlc : Nat
  data : List Nat
  ext : Bool
deriving DecidableEq, Repr

/-- `CanFrame::new` from `src/channel.rs` lines 363-373:
`max = min(8, data.len())`; `tmp` is 8 zero bytes with `data[0..max]` copied
into `tmp[0..max]`; the frame stores `id`, `dlc = max`, `tmp`, `ext = is_ext`. -/
def CanFrame.new (id : Nat) (data : List Nat) (is_ext : Bool) : CanFrame :=
  let max := min 8 data.length
  let tmp := data.take max ++ List.replicate (8 - max) 0
  { id := id, dlc := max, data := tmp, ext := is_ext }

/-- `CanFrame::is_extended` from `src/channel.rs` lines 376-378: returns the
stored `ext` field. -/
def CanFrame.is_extended (f : CanFrame) : Bool :=
  f.ext

/-- `Packet::get_address` for `CanFrame`, `src/channel.rs` lines 382-384. -/
def CanFrame.get_address (f : CanFrame) : Nat :=
  f.id

/-- `Packet::get_data` for `CanFrame`, `src/channel.rs` lines 386-388: the
slice `&self.data[0..self.dlc]`. -/
def CanFrame.get_data (f : CanFrame) : List Nat :=
  f.data.take f.dlc

/-- `Packet::set_address` for `CanFrame`, `src/channel.rs` lines 390-392. -/
def CanFrame.set_address (f : CanFrame) (address : Nat) : CanFrame :=
  { f with id := address }

/-- `Packet::set_data` for `CanFrame`, `src/channel.rs` lines 393-397:
`max = min(8, data.len())`; `data[0..max]` is copied over `self.data[0..max]`,
bytes past `max` keep their old values; `dlc = max`. -/
def CanFrame.set_data (f : CanFrame) (data : List Nat) : CanFrame :=
  let max := min 8 data.length
  { f with data := data.take max ++ f.data.drop max, dlc := max }

/-- `IsoTPSettings` from `src/channel.rs` lines 400-430. -/
structure IsoTPSettings where
  block_size : Nat
  st_min : Nat
  extended_addressing : Bool
  pad_frame : Bool
  can_speed : Nat
  can_use_ext_addr : Bool
deriving DecidableEq, Repr

/-- `impl Default for IsoTPSettings` from `src/channel.rs` lines 432-443. -/
def IsoTPSettings.default : IsoTPSettings :=
  { block_size := 8
  , st_min := 20
  , extended_addressing := false
  , pad_frame := true
  , can_speed := 500000
  , can_use_ext_addr := false }

/-- Taking `min 8 (length l)` elements is the same as taking 8: `take`
saturates at the length of the list. -/
theorem take_min_eight (l : List Nat) : l.take (min 8 l.length) = l.take 8 := by
  rcases Nat.le_total 8 l.length with h | h
  · rw [Nat.min_eq_left h]
  · rw [Nat.min_eq_right h, List.take_length, List.take_of_length_le h]

/-- C2: for every byte sequence, `CanFrame::new` followed by `get_data` returns
the input truncated to 8 bytes and stores `dlc = min 8 (length input)`; the
same clamping holds for `set_data` on an arbitrary existing frame. -/
theorem canFrame_data_clamped_to_eight (id : Nat) (data : List Nat)
    (is_ext : Bool) (f : CanFrame) (d : List Nat) :
    (CanFrame.new id data is_ext).get_data = data.take 8 ∧
    (CanFrame.new id data is_ext).dlc = min 8 data.length ∧
    (f.set_data d).get_data = d.take 8 ∧
    (f.set_data d).dlc = min 8 d.length := by
  refine ⟨?_, rfl, ?_, rfl⟩
  · show (data.take (min 8 data.length) ++
        List.replicate (8 - min 8 data.length) 0).take (min 8 data.length) =
      data.take 8
    rw [List.take_left' (by simp), take_min_eight]
  · show (d.take (min 8 d.length) ++ f.data.drop (min 8 d.length)).take
        (min 8 d.length) = d.take 8
    rw [List.take_left' (by simp), take_min_eight]

/-- C3: `is_extended` on a frame built by `CanFrame::new id data is_ext`
returns exactly the `is_ext` argument, for every id — including ids above
0x7FF — so the stored flag is never forced to true by a large id. -/
theorem canFrame_is_extended_reports_stored_flag (id : Nat) (data : List Nat)
    (is_ext : Bool) : (CanFrame.new id data is_ext).is_extended = is_ext :=
  rfl

/-- C7: the `Default` constructor of `IsoTPSettings` yields block_size = 8,
st_min = 20, extended_addressing = false, pad_frame = true,
can_speed = 500000 and can_use_ext_addr = false. -/
theorem isoTPSettings_default_fields :
    IsoTPSettings.default.block_size = 8 ∧
    IsoTPSettings.default.st_min = 20 ∧
    IsoTPSettings.default.extended_addressing = false ∧
    IsoTPSettings.default.pad_frame = true ∧
    IsoTPSettings.default.can_speed = 500000 ∧
    IsoTPSettings.default.can_use_ext_addr = false :=
  ⟨rfl, rfl, rfl, rfl, rfl, rfl⟩

/-- C10: `set_address` changes only the id — `get_data` and `is_extended` are
unchanged — and `set_data` changes only the observable data: `get_address` and
`is_extended` are unchanged. -/
theorem canFrame_setters_touch_only_their_field (f : CanFrame) (a : Nat)
    (d : List Nat) :
    (f.set_address a).get_data = f.get_data ∧
    (f.set_address a).is_extended = f.is_extended ∧
    (f.set_data d).get_address = f.get_address ∧
    (f.set_data d).is_extended = f.is_extended :=
  ⟨rfl, rfl, rfl, rfl⟩

/-- A `PayloadChannel` implementation (`src/channel.rs` lines 81-147) over an
abstract state type `S`: each required trait method is a state-transition
function returning a `ChannelResult`. Methods whose Rust signature returns
`ChannelResult<()>` here return the updated state on success; `read_bytes`
additionally returns the bytes read. -/
structure PayloadChannelImpl (S : Type) where
  open_ : S → ChannelResult S
  close : S → ChannelResult S
  set_ids : S → Nat → Nat → ChannelResult S
  read_bytes : S → Nat → ChannelResult (List Nat × S)
  write_bytes : S → Nat → List Nat → Nat → ChannelResult S
  clear_rx_buffer : S → ChannelResult S
  clear_tx_buffer : S → ChannelResult S

/-- The provided (default) method `PayloadChannel::read_write_bytes` from
`src/channel.rs` lines 128-137: `self.write_bytes(addr, buffer,
write_timeout_ms)?; self.read_bytes(read_timeout_ms)`. -/
def PayloadChannelImpl.read_write_bytes {S : Type} (c : PayloadChannelImpl S)
    (s : S) (addr : Nat) (buffer : List Nat)
    (write_timeout_ms read_timeout_ms : Nat) : ChannelResult (List Nat × S) :=
  (c.write_bytes s addr buffer write_timeout_ms).bind fun s2 =>
    c.read_bytes s2 read_timeout_ms

/-- An `IsoTPChannel` implementation (`src/channel.rs` lines 150-156): a
`PayloadChannel` plus `set_iso_tp_cfg`. -/
structure IsoTPChannelImpl (S : Type) extends PayloadChannelImpl S where
  set_iso_tp_cfg : S → IsoTPSettings → ChannelResult S

/-- A `PacketChannel<T>` implementation (`src/channel.rs` lines 163-187) over
packet type `P` and state type `S`. -/
structure PacketChannelImpl (P : Type) (S : Type) where
  open_ : S → ChannelResult S
  close : S → ChannelResult S
  write_packets : S → List P → Nat → ChannelResult S
  read_packets : S → Nat → Nat → ChannelResult (List P × S)
  clear_rx_buffer : S → ChannelResult S
  clear_tx_buffer : S → ChannelResult S

/-- A `CanChannel` implementation (`src/channel.rs` lines 190-193): a
`PacketChannel<CanFrame>` plus `set_can_cfg`. -/
structure CanChannelImpl (S : Type) extends PacketChannelImpl CanFrame S where
  set_can_cfg : S → Nat → Bool → ChannelResult S

/-- `impl<T: PayloadChannel + ?Sized> PayloadChannel for Box<T>` from
`src/channel.rs` lines 195-223: each method forwards to `T::method(self)`.
In the embedding a box introduces no state of its own, so the adapter is a
new `PayloadChannelImpl` over the same state whose every method calls the
wrapped one. -/
def boxPayloadChannel {S : Type} (c : PayloadChannelImpl S) :
    PayloadChannelImpl S where
  open_ := fun s => c.open_ s
  close := fun s => c.close s
  set_ids := fun s send recv => c.set_ids s send recv
  read_bytes := fun s timeout_ms => c.read_bytes s timeout_ms
  write_bytes := fun s addr buffer timeout_ms => c.write_bytes s addr buffer timeout_ms
  clear_rx_buffer := fun s => c.clear_rx_buffer s
  clear_tx_buffer := fun s => c.clear_tx_buffer s

/-- `impl<T: IsoTPChannel + ?Sized> IsoTPChannel for Box<T>` from
`src/channel.rs` lines 225-229; the `PayloadChannel` part comes from the
blanket boxed impl. -/
def boxIsoTPChannel {S : Type} (c : IsoTPChannelImpl S) : IsoTPChannelImpl S where
  toPayloadChannelImpl := boxPayloadChannel c.toPayloadChannelImpl
  set_iso_tp_cfg := fun s cfg => c.set_iso_tp_cfg s cfg

/-- `impl<X: Packet, T: PacketChannel<X> + ?Sized> PacketChannel<X> for Box<T>`
from `src/channel.rs` lines 231-255. -/
def boxPacketChannel {P S : Type} (c : PacketChannelImpl P S) :
    PacketChannelImpl P S where
  open_ := fun s => c.open_ s
  close := fun s => c.close s
  write_packets := fun s packets timeout_ms => c.write_packets s packets timeout_ms
  read_packets := fun s mx timeout_ms => c.read_packets s mx timeout_ms
  clear_rx_buffer := fun s => c.clear_rx_buffer s
  clear_tx_buffer := fun s => c.clear_tx_buffer s

/-- `impl<T: CanChannel + ?Sized> CanChannel for Box<T>` from `src/channel.rs`
lines 257-261. -/
def boxCanChannel {S : Type} (c : CanChannelImpl S) : CanChannelImpl S where
  toPacketChannelImpl := boxPacketChannel c.toPacketChannelImpl
  set_can_cfg := fun s baud use_extended => c.set_can_cfg s baud use_extended

/-- The state of a `Mutex<T>`-guarded value: the guarded inner state plus the
poison flag that makes `lock()` fail when a previous holder panicked. -/
structure MutexState (S : Type) where
  poisoned : Bool
  inner : S
deriving DecidableEq, Repr

/-- `self.lock()?` as used by the `Arc<Mutex<T>>` impls in `src/channel.rs`
lines 263-329: acquiring the lock fails exactly when the mutex is poisoned.
Modelled from the spec: the `From` conversion the `?` operator applies to the
lock failure is not under src/; the spec fixes only that a lock failure
surfaces as a `ChannelError`, so the converted error `conv` is a parameter. -/
def lockMutex {S : Type} (conv : ChannelError) (m : MutexState S) :
    ChannelResult S :=
  if m.poisoned then Except.error conv else Except.ok m.inner

/-- `impl<T: PayloadChannel + ?Sized> PayloadChannel for Arc<Mutex<T>>` from
`src/channel.rs` lines 263-291: each method is
`T::method(self.lock()?.borrow_mut(), args)`. -/
def arcMutexPayloadChannel {S : Type} (conv : ChannelError)
    (c : PayloadChannelImpl S) : PayloadChannelImpl (MutexState S) where
  open_ := fun m => (lockMutex conv m).bind fun s =>
    (c.open_ s).map fun s2 => ⟨false, s2⟩
  close := fun m => (lockMutex conv m).bind fun s =>
    (c.close s).map fun s2 => ⟨false, s2⟩
  set_ids := fun m send recv => (lockMutex conv m).bind fun s =>
    (c.set_ids s send recv).map fun s2 => ⟨false, s2⟩
  read_bytes := fun m timeout_ms => (lockMutex conv m).bind fun s =>
    (c.read_bytes s timeout_ms).map fun r => (r.1, ⟨false, r.2⟩)
  write_bytes := fun m addr buffer timeout_ms => (lockMutex conv m).bind fun s =>
    (c.write_bytes s addr buffer timeout_ms).map fun s2 => ⟨false, s2⟩
  clear_rx_buffer := fun m => (lockMutex conv m).bind fun s =>
    (c.clear_rx_buffer s).map fun s2 => ⟨false, s2⟩
  clear_tx_buffer := fun m => (lockMutex conv m).bind fun s =>
    (c.clear_tx_buffer s).map fun s2 => ⟨false, s2⟩

/-- `impl<T: IsoTPChannel + ?Sized> IsoTPChannel for Arc<Mutex<T>>` from
`src/channel.rs` lines 293-297. -/
def arcMutexIsoTPChannel {S : Type} (conv : ChannelError)
    (c : IsoTPChannelImpl S) : IsoTPChannelImpl (MutexState S) where
  toPayloadChannelImpl := arcMutexPayloadChannel conv c.toPayloadChannelImpl
  set_iso_tp_cfg := fun m cfg => (lockMutex conv m).bind fun s =>
    (c.set_iso_tp_cfg s cfg).map fun s2 => ⟨false, s2⟩

/-- `impl<X: Packet, T: PacketChannel<X> + ?Sized> PacketChannel<X> for
Arc<Mutex<T>>` from `src/channel.rs` lines 299-323. -/
def arcMutexPacketChannel {P S : Type} (conv : ChannelError)
    (c : PacketChannelImpl P S) : PacketChannelImpl P (MutexState S) where
  open_ := fun m => (lockMutex conv m).bind fun s =>
    (c.open_ s).map fun s2 => ⟨false, s2⟩
  close := fun m => (lockMutex conv m).bind fun s =>
    (c.close s).map fun s2 => ⟨false, s2⟩
  write_packets := fun m packets timeout_ms => (lockMutex conv m).bind fun s =>
    (c.write_packets s packets timeout_ms).map fun s2 => ⟨false, s2⟩
  read_packets := fun m mx timeout_ms => (lockMutex conv m).bind fun s =>
    (c.read_packets s mx timeout_ms).map fun r => (r.1, ⟨false, r.2⟩)
  clear_rx_buffer := fun m => (lockMutex conv m).bind fun s =>
    (c.clear_rx_buffer s).map fun s2 => ⟨false, s2⟩
  clear_tx_buffer := fun m => (lockMutex conv m).bind fun s =>
    (c.clear_tx_buffer s).map fun s2 => ⟨false, s2⟩

/-- `impl<T: CanChannel + ?Sized> CanChannel for Arc<Mutex<T>>` from
`src/channel.rs` lines 325-329. -/
def arcMutexCanChannel {S : Type} (conv : ChannelError) (c : CanChannelImpl S) :
    CanChannelImpl (MutexState S) where
  toPacketChannelImpl := arcMutexPacketChannel conv c.toPacketChannelImpl
  set_can_cfg := fun m baud use_extended => (lockMutex conv m).bind fun s =>
    (c.set_can_cfg s baud use_extended).map fun s2 => ⟨false, s2⟩

/-- A small concrete `PayloadChannel` implementation over state `Nat`, used
only to instantiate the generic adapter theorems at concrete inputs. -/
def demoChannel : PayloadChannelImpl Nat where
  open_ := fun s => Except.ok (s + 1)
  close := fun _ => Except.ok 0
  set_ids := fun s send recv => Except.ok (s + send + recv)
  read_bytes := fun s timeout_ms => Except.ok ([s, timeout_ms], s)
  write_bytes := fun s addr buffer timeout_ms =>
    Except.ok (s + addr + buffer.length + timeout_ms)
  clear_rx_buffer := fun s => Except.ok s
  clear_tx_buffer := fun s => Except.ok s

/-- A small concrete `IsoTPChannel` implementation over state `Nat`. -/
def demoIsoTP : IsoTPChannelImpl Nat where
  toPayloadChannelImpl := demoChannel
  set_iso_tp_cfg := fun s cfg => Except.ok (s + cfg.block_size)

/-- A small concrete `PacketChannel<CanFrame>` implementation over state
`Nat`. -/
def demoPacket : PacketChannelImpl CanFrame Nat where
  open_ := fun s => Except.ok (s + 1)
  close := fun _ => Except.ok 0
  write_packets := fun s packets timeout_ms =>
    Except.ok (s + packets.length + timeout_ms)
  read_packets := fun s _ _ => Except.ok ([], s)
  clear_rx_buffer := fun s => Except.ok s
  clear_tx_buffer := fun s => Except.ok s

/-- A small concrete `CanChannel` implementation over state `Nat`. -/
def demoCan : CanChannelImpl Nat where
  toPacketChannelImpl := demoPacket
  set_can_cfg := fun s baud use_extended =>
    Except.ok (s + baud + if use_extended then 1 else 0)

/-- `ResetType` from `src/uds/ecu_reset.rs` lines 7-40: options for resetting
the ECU, plus an open `Other(u8)` escape for vendor-defined codes. -/
inductive ResetType where
  | HardReset
  | KeyOffReset
  | SoftReset
  | EnableRapidPowerShutDown
  | DisableRapidPowerShutDown
  | Other (x : Nat)
deriving DecidableEq, Repr

/-- `impl From<ResetType> for u8` from `src/uds/ecu_reset.rs` lines 42-53. -/
def u8OfResetType : ResetType → Nat
  | .HardReset => 0x01
  | .KeyOffReset => 0x02
  | .SoftReset => 0x03
  | .EnableRapidPowerShutDown => 0x04
  | .DisableRapidPowerShutDown => 0x05
  | .Other x => x

/-- Modelled from the spec: `DiagError` (from `crate::DiagError`) is not under
src/. Per the spec it must represent an ECU negative response with
code and optional description distinctly from a malformed (undersized)
response; only the two variants used by the ECU-reset operations are
modelled. -/
inductive DiagError where
  | ECUError (code : Nat) (def_ : Option String)
  | InvalidResponseLength
deriving DecidableEq, Repr

/-- `DiagServerResult<T>`, modelled over the spec-modelled `DiagError`. -/
abbrev DiagServerResult (T : Type) := Except DiagError T

/-- Modelled from the spec: `lookup_uds_nrc` (the static NRC description
table) is not under src/. The spec fixes only the entry this file uses:
code 0x10 is the general-reject description. -/
def lookup_uds_nrc (code : Nat) : String :=
  if code = 0x10 then "ECU general reject" else "Unknown NRC"

/-- Modelled from the spec: the `UDSCommand` service-identifier enum is not
under src/; only `ECUReset` is used here, and the spec scenarios fix its
service id byte as 0x11. -/
inductive UDSCommand where
  | ECUReset
deriving DecidableEq, Repr

/-- Modelled from the spec: the wire byte of a `UDSCommand`; the spec
scenarios give request bytes `[0x11, sub-function]` for `ECUReset`. -/
def UDSCommand.toByte : UDSCommand → Nat
  | .ECUReset => 0x11

/-- Modelled from the spec: `UdsDiagnosticServer::execute_command_with_response`
is not under src/. Per the spec it builds the request buffer
`[service identifier byte, ...parameters]`, drives the channel, and returns
either the validated response bytes or a `DiagError`. The channel and its
validation are abstracted as the oracle `exec` from request buffers to
results; the embedded function contributes exactly the request construction. -/
def execute_command_with_response
    (exec : List Nat → DiagServerResult (List Nat)) (cmd : UDSCommand)
    (args : List Nat) : DiagServerResult (List Nat) :=
  exec (cmd.toByte :: args)

/-- `UdsDiagnosticServer::ecu_hard_reset` from `src/uds/ecu_reset.rs`
lines 60-64: execute ECUReset with the HardReset sub-function and map a
successful response to unit. -/
def ecu_hard_reset (exec : List Nat → DiagServerResult (List Nat)) :
    DiagServerResult Unit :=
  (execute_command_with_response exec UDSCommand.ECUReset
      [u8OfResetType ResetType.HardReset]).map fun _ => ()

/-- `UdsDiagnosticServer::ecu_key_off_on_reset` from `src/uds/ecu_reset.rs`
lines 70-74. -/
def ecu_key_off_on_reset (exec : List Nat → DiagServerResult (List Nat)) :
    DiagServerResult Unit :=
  (execute_command_with_response exec UDSCommand.ECUReset
      [u8OfResetType ResetType.KeyOffReset]).map fun _ => ()

/-- `UdsDiagnosticServer::ecu_soft_reset` from `src/uds/ecu_reset.rs`
lines 80-84. -/
def ecu_soft_reset (exec : List Nat → DiagServerResult (List Nat)) :
    DiagServerResult Unit :=
  (execute_command_with_response exec UDSCommand.ECUReset
      [u8OfResetType ResetType.SoftReset]).map fun _ => ()

/-- `UdsDiagnosticServer::enable_rapid_power_shutdown` from
`src/uds/ecu_reset.rs` lines 93-106: execute ECUReset with the
EnableRapidPowerShutDown sub-function, then match on `res.get(2)`:
a third byte of 0xFF is an ECU error with code 0x10 and its looked-up
description, any other third byte is returned, and a missing third byte is an
invalid-response-length error. -/
def enable_rapid_power_shutdown (exec : List Nat → DiagServerResult (List Nat)) :
    DiagServerResult Nat :=
  (execute_command_with_response exec UDSCommand.ECUReset
      [u8OfResetType ResetType.EnableRapidPowerShutDown]).bind fun res =>
    match res[2]? with
    | some time =>
        if time = 0xFF then
          Except.error (DiagError.ECUError 0x10 (some (lookup_uds_nrc 0x10)))
        else
          Except.ok time
    | none => Except.error DiagError.InvalidResponseLength

/-- `UdsDiagnosticServer::disable_rapid_power_shutdown` from
`src/uds/ecu_reset.rs` lines 112-119. -/
def disable_rapid_power_shutdown
    (exec : List Nat → DiagServerResult (List Nat)) : DiagServerResult Unit :=
  (execute_command_with_response exec UDSCommand.ECUReset
      [u8OfResetType ResetType.DisableRapidPowerShutDown]).map fun _ => ()

/-- C5: the `From<ResetType> for u8` conversion maps HardReset to 0x01,
KeyOffReset to 0x02, SoftReset to 0x03, EnableRapidPowerShutDown to 0x04,
DisableRapidPowerShutDown to 0x05, and Other x to x verbatim. -/
theorem resetType_wire_codes (x : Nat) :
    u8OfResetType ResetType.HardReset = 0x01 ∧
    u8OfResetType ResetType.KeyOffReset = 0x02 ∧
    u8OfResetType ResetType.SoftReset = 0x03 ∧
    u8OfResetType ResetType.EnableRapidPowerShutDown = 0x04 ∧
    u8OfResetType ResetType.DisableRapidPowerShutDown = 0x05 ∧
    u8OfResetType (ResetType.Other x) = x :=
  ⟨rfl, rfl, rfl, rfl, rfl, rfl⟩

/-- C1: for every response buffer the channel returns for the request
`[0x11, 0x04]`, `enable_rapid_power_shutdown` yields: an
invalid-response-length error when the buffer has fewer than 3 bytes; an ECU
error with code 0x10 and the looked-up description when byte 2 is 0xFF; and
`Ok` of byte 2 otherwise. -/
theorem enable_rapid_power_shutdown_interprets_response
    (exec : List Nat → DiagServerResult (List Nat)) (res : List Nat)
    (h : exec [0x11, 0x04] = Except.ok res) :
    (res.length < 3 →
      enable_rapid_power_shutdown exec =
        Except.error DiagError.InvalidResponseLength) ∧
    (res[2]? = some 0xFF →
      enable_rapid_power_shutdown exec =
        Except.error
          (DiagError.ECUError 0x10 (some (lookup_uds_nrc 0x10)))) ∧
    (∀ t, res[2]? = some t → t ≠ 0xFF →
      enable_rapid_power_shutdown exec = Except.ok t) := by
  have hrun : enable_rapid_power_shutdown exec =
      match res[2]? with
      | some time =>
          if time = 0xFF then
            Except.error (DiagError.ECUError 0x10 (some (lookup_uds_nrc 0x10)))
          else
            Except.ok time
      | none => Except.error DiagError.InvalidResponseLength := by
    unfold enable_rapid_power_shutdown execute_command_with_response
    simp [UDSCommand.toByte, u8OfResetType, h, Except.bind]
  refine ⟨fun hlen => ?_, fun hff => ?_, fun t ht htne => ?_⟩
  · rw [hrun, List.getElem?_eq_none (by omega)]
  · rw [hrun, hff]
    simp
  · rw [hrun, ht]
    simp [htne]

/-- C1 witness: for the channel response `[0x51, 0x04, 0x05]`,
`enable_rapid_power_shutdown` returns `Ok 5`. -/
theorem enable_rapid_power_shutdown_interprets_response_witness :
    enable_rapid_power_shutdown (fun _ => Except.ok [0x51, 0x04, 0x05]) =
      Except.ok 5 :=
  (enable_rapid_power_shutdown_interprets_response
      (fun _ => Except.ok [0x51, 0x04, 0x05]) [0x51, 0x04, 0x05] rfl).2.2
    5 rfl (by decide)

/-- C6: `ecu_hard_reset`, `ecu_key_off_on_reset`, `ecu_soft_reset` and
`disable_rapid_power_shutdown` send the ECUReset service id (0x11) followed by
the one-byte wire code of their `ResetType`, and on any successful response
they discard the response body and return unit. -/
theorem reset_ops_request_bytes_and_discard_response
    (exec : List Nat → DiagServerResult (List Nat)) (res : List Nat) :
    (ecu_hard_reset exec = (exec [0x11, 0x01]).map fun _ => ()) ∧
    (ecu_key_off_on_reset exec = (exec [0x11, 0x02]).map fun _ => ()) ∧
    (ecu_soft_reset exec = (exec [0x11, 0x03]).map fun _ => ()) ∧
    (disable_rapid_power_shutdown exec =
      (exec [0x11, 0x05]).map fun _ => ()) ∧
    (exec [0x11, 0x01] = Except.ok res →
      ecu_hard_reset exec = Except.ok ()) ∧
    (exec [0x11, 0x02] = Except.ok res →
      ecu_key_off_on_reset exec = Except.ok ()) ∧
    (exec [0x11, 0x03] = Except.ok res →
      ecu_soft_reset exec = Except.ok ()) ∧
    (exec [0x11, 0x05] = Except.ok res →
      disable_rapid_power_shutdown exec = Except.ok ()) := by
  refine ⟨rfl, rfl, rfl, rfl, fun h => ?_, fun h => ?_, fun h => ?_,
    fun h => ?_⟩ <;>
    simp [ecu_hard_reset, ecu_key_off_on_reset, ecu_soft_reset,
      disable_rapid_power_shutdown, execute_command_with_response,
      UDSCommand.toByte, u8OfResetType, h, Except.map]

/-- C6 witness: with a channel answering `[0x51, 0x01]` to a hard-reset
request, `ecu_hard_reset` succeeds and returns unit. -/
theorem reset_ops_request_bytes_and_discard_response_witness :
    ecu_hard_reset
        (fun req => if req = [0x11, 0x01] then Except.ok [0x51, 0x01]
          else Except.error DiagError.InvalidResponseLength) =
      Except.ok () :=
  (reset_ops_request_bytes_and_discard_response
      (fun req => if req = [0x11, 0x01] then Except.ok [0x51, 0x01]
        else Except.error DiagError.InvalidResponseLength)
      [0x51, 0x01]).2.2.2.2.1 rfl

/-- C4: the default `read_write_bytes` is write-then-read: when `write_bytes`
fails with error `e`, `read_write_bytes` returns that same error (no read is
performed); when `write_bytes` succeeds, the result is exactly
`read_bytes read_timeout_ms` from the post-write state. -/
theorem read_write_bytes_is_write_then_read {S : Type}
    (c : PayloadChannelImpl S) (s : S) (addr : Nat) (buffer : List Nat)
    (write_timeout_ms read_timeout_ms : Nat) :
    (∀ e, c.write_bytes s addr buffer write_timeout_ms = Except.error e →
      c.read_write_bytes s addr buffer write_timeout_ms read_timeout_ms =
        Except.error e) ∧
    (∀ s2, c.write_bytes s addr buffer write_timeout_ms = Except.ok s2 →
      c.read_write_bytes s addr buffer write_timeout_ms read_timeout_ms =
        c.read_bytes s2 read_timeout_ms) := by
  constructor <;> intro x h <;>
    simp [PayloadChannelImpl.read_write_bytes, h, Except.bind]

/-- C4 witness: on the concrete channel, writing from state 0 to address 1
with payload `[5]` reaches state 4, and `read_write_bytes` returns what
`read_bytes` returns there. -/
theorem read_write_bytes_is_write_then_read_witness :
    demoChannel.read_write_bytes 0 1 [5] 2 3 = Except.ok ([4, 3], 4) :=
  ((read_write_bytes_is_write_then_read demoChannel 0 1 [5] 2 3).2 4 rfl).trans
    rfl

/-- C8: every operation of the four boxed adapters returns exactly the result
of the same operation on the wrapped implementation, for every implementation,
state and argument list. -/
theorem box_adapters_forward_unchanged {S P : Type} (p : PayloadChannelImpl S)
    (i : IsoTPChannelImpl S) (pc : PacketChannelImpl P S)
    (cc : CanChannelImpl S) (s : S) (send recv addr timeout_ms mx baud : Nat)
    (buffer : List Nat) (cfg : IsoTPSettings) (packets : List P) (ue : Bool) :
    (boxPayloadChannel p).open_ s = p.open_ s ∧
    (boxPayloadChannel p).close s = p.close s ∧
    (boxPayloadChannel p).set_ids s send recv = p.set_ids s send recv ∧
    (boxPayloadChannel p).read_bytes s timeout_ms = p.read_bytes s timeout_ms ∧
    (boxPayloadChannel p).write_bytes s addr buffer timeout_ms =
      p.write_bytes s addr buffer timeout_ms ∧
    (boxPayloadChannel p).clear_rx_buffer s = p.clear_rx_buffer s ∧
    (boxPayloadChannel p).clear_tx_buffer s = p.clear_tx_buffer s ∧
    (boxIsoTPChannel i).set_iso_tp_cfg s cfg = i.set_iso_tp_cfg s cfg ∧
    (boxPacketChannel pc).open_ s = pc.open_ s ∧
    (boxPacketChannel pc).close s = pc.close s ∧
    (boxPacketChannel pc).write_packets s packets timeout_ms =
      pc.write_packets s packets timeout_ms ∧
    (boxPacketChannel pc).read_packets s mx timeout_ms =
      pc.read_packets s mx timeout_ms ∧
    (boxPacketChannel pc).clear_rx_buffer s = pc.clear_rx_buffer s ∧
    (boxPacketChannel pc).clear_tx_buffer s = pc.clear_tx_buffer s ∧
    (boxCanChannel cc).set_can_cfg s baud ue = cc.set_can_cfg s baud ue :=
  ⟨rfl, rfl, rfl, rfl, rfl, rfl, rfl, rfl, rfl, rfl, rfl, rfl, rfl, rfl, rfl⟩

/-- C9: every operation of the mutex-guarded shared adapters returns the
converted `ChannelError` when the lock is poisoned, and when the lock is
healthy it returns exactly the result of the wrapped implementation on the
guarded state (success states re-wrapped under the lock). -/
theorem arc_mutex_adapters_serialize_or_fail {S P : Type}
    (conv : ChannelError) (p : PayloadChannelImpl S) (i : IsoTPChannelImpl S)
    (pc : PacketChannelImpl P S) (cc : CanChannelImpl S) (m : MutexState S)
    (send recv addr timeout_ms mx baud : Nat) (buffer : List Nat)
    (cfg : IsoTPSettings) (packets : List P) (ue : Bool) :
    (m.poisoned = true →
      (arcMutexPayloadChannel conv p).open_ m = Except.error conv ∧
      (arcMutexPayloadChannel conv p).close m = Except.error conv ∧
      (arcMutexPayloadChannel conv p).set_ids m send recv = Except.error conv ∧
      (arcMutexPayloadChannel conv p).read_bytes m timeout_ms =
        Except.error conv ∧
      (arcMutexPayloadChannel conv p).write_bytes m addr buffer timeout_ms =
        Except.error conv ∧
      (arcMutexPayloadChannel conv p).clear_rx_buffer m = Except.error conv ∧
      (arcMutexPayloadChannel conv p).clear_tx_buffer m = Except.error conv ∧
      (arcMutexIsoTPChannel conv i).set_iso_tp_cfg m cfg = Except.error conv ∧
      (arcMutexPacketChannel conv pc).open_ m = Except.error conv ∧
      (arcMutexPacketChannel conv pc).close m = Except.error conv ∧
      (arcMutexPacketChannel conv pc).write_packets m packets timeout_ms =
        Except.error conv ∧
      (arcMutexPacketChannel conv pc).read_packets m mx timeout_ms =
        Except.error conv ∧
      (arcMutexPacketChannel conv pc).clear_rx_buffer m = Except.error conv ∧
      (arcMutexPacketChannel conv pc).clear_tx_buffer m = Except.error conv ∧
      (arcMutexCanChannel conv cc).set_can_cfg m baud ue =
        Except.error conv) ∧
    (m.poisoned = false →
      (arcMutexPayloadChannel conv p).open_ m =
        (p.open_ m.inner).map (fun s2 => ⟨false, s2⟩) ∧
      (arcMutexPayloadChannel conv p).close m =
        (p.close m.inner).map (fun s2 => ⟨false, s2⟩) ∧
      (arcMutexPayloadChannel conv p).set_ids m send recv =
        (p.set_ids m.inner send recv).map (fun s2 => ⟨false, s2⟩) ∧
      (arcMutexPayloadChannel conv p).read_bytes m timeout_ms =
        (p.read_bytes m.inner timeout_ms).map (fun r => (r.1, ⟨false, r.2⟩)) ∧
      (arcMutexPayloadChannel conv p).write_bytes m addr buffer timeout_ms =
        (p.write_bytes m.inner addr buffer timeout_ms).map
          (fun s2 => ⟨false, s2⟩) ∧
      (arcMutexPayloadChannel conv p).clear_rx_buffer m =
        (p.clear_rx_buffer m.inner).map (fun s2 => ⟨false, s2⟩) ∧
      (arcMutexPayloadChannel conv p).clear_tx_buffer m =
        (p.clear_tx_buffer m.inner).map (fun s2 => ⟨false, s2⟩) ∧
      (arcMutexIsoTPChannel conv i).set_iso_tp_cfg m cfg =
        (i.set_iso_tp_cfg m.inner cfg).map (fun s2 => ⟨false, s2⟩) ∧
      (arcMutexPacketChannel conv pc).open_ m =
        (pc.open_ m.inner).map (fun s2 => ⟨false, s2⟩) ∧
      (arcMutexPacketChannel conv pc).close m =
        (pc.close m.inner).map (fun s2 => ⟨false, s2⟩) ∧
      (arcMutexPacketChannel conv pc).write_packets m packets timeout_ms =
        (pc.write_packets m.inner packets timeout_ms).map
          (fun s2 => ⟨false, s2⟩) ∧
      (arcMutexPacketChannel conv pc).read_packets m mx timeout_ms =
        (pc.read_packets m.inner mx timeout_ms).map
          (fun r => (r.1, ⟨false, r.2⟩)) ∧
      (arcMutexPacketChannel conv pc).clear_rx_buffer m =
        (pc.clear_rx_buffer m.inner).map (fun s2 => ⟨false, s2⟩) ∧
      (arcMutexPacketChannel conv pc).clear_tx_buffer m =
        (pc.clear_tx_buffer m.inner).map (fun s2 => ⟨false, s2⟩) ∧
      (arcMutexCanChannel conv cc).set_can_cfg m baud ue =
        (cc.set_can_cfg m.inner baud ue).map (fun s2 => ⟨false, s2⟩)) := by
  refine ⟨fun hp => ?_, fun hp => ?_⟩ <;>
    simp [arcMutexPayloadChannel, arcMutexIsoTPChannel, arcMutexPacketChannel,
      arcMutexCanChannel, lockMutex, hp, Except.bind]

/-- C9 witness: on the concrete channel, opening through the shared adapter
with a poisoned lock yields the converted `ChannelError`, and with a healthy
lock yields exactly what the wrapped channel yields (state 0 opens to 1). -/
theorem arc_mutex_adapters_serialize_or_fail_witness :
    (arcMutexPayloadChannel ChannelError.NotOpen demoChannel).open_
        ⟨true, 0⟩ = Except.error ChannelError.NotOpen ∧
    (arcMutexPayloadChannel ChannelError.NotOpen demoChannel).open_
        ⟨false, 0⟩ = Except.ok ⟨false, 1⟩ :=
  ⟨((arc_mutex_adapters_serialize_or_fail ChannelError.NotOpen demoChannel
        demoIsoTP demoPacket demoCan ⟨true, 0⟩ 0 0 0 0 0 0 []
        IsoTPSettings.default [] false).1 rfl).1,
    (((arc_mutex_adapters_serialize_or_fail ChannelError.NotOpen demoChannel
        demoIsoTP demoPacket demoCan ⟨false, 0⟩ 0 0 0 0 0 0 []
        IsoTPSettings.default [] false).2 rfl).1).trans rfl⟩

end EcuDiag
